import Mathlib

/-
Shallow embedding of the GL reconciliation evaluator of
src/streamlit_gl_recon_simple.py (whose evaluator is shared, line for
line, with src/streamlit_app.py up to the two extra result fields
agent_run_id and checklist_version and the unused prepared_on coercion).

Modelling conventions:
  * a cell value coming out of the normalized data frame is a `Value`
    (Python None, str, int, float, bool, or an already-parsed date);
  * Python floats are idealized as rationals; float NaN payloads are not
    modelled (a missing cell is modelled as `Value.vNone`, i.e. None);
  * dates are day numbers (days since 1970-01-01), so Python date
    subtraction `.days` is integer subtraction;
  * a Python expression that can raise is embedded as `Except Unit`;
  * library builtins used by the source (float(), int(), str(), bool(),
    pd.to_datetime) are modelled by py*-named functions next to their
    uses; pd.to_datetime is modelled for date values and ISO-format
    `YYYY-MM-DD` strings, every other input kind being treated as
    unparseable (the source catches the exception and returns None).
-/

namespace GLRecon

/-- A cell value of the normalized record, as the Python evaluator can
receive it from pandas: None, a string, an int, a float (idealized as a
rational), a bool, or an already-parsed date (a day number). -/
inductive Value where
  | vNone  : Value
  | vStr   : String → Value
  | vInt   : Int → Value
  | vFloat : ℚ → Value
  | vBool  : Bool → Value
  | vDate  : Int → Value
deriving DecidableEq

/-- Python truthiness of a cell value, as used by `x or default`. -/
def truthy : Value → Bool
  | .vNone => false
  | .vStr s => !s.data.isEmpty
  | .vInt n => n != 0
  | .vFloat q => q != 0
  | .vBool b => b
  | .vDate _ => true

/-- Models the Python expression `x or d`: `x` when truthy, else `d`. -/
def pyOr (x d : Value) : Value := if truthy x then x else d

/-- Digit list to number, most significant first (all-digit input). -/
def digitsVal (cs : List Char) : Nat :=
  cs.foldl (fun a c => a * 10 + (c.toNat - 48)) 0

/-- The whitespace characters stripped by the Python `strip` method. -/
def isPySpace (c : Char) : Bool :=
  c == ' ' || c == '\t' || c == '\n' || c == '\r' || c == '\x0b' || c == '\x0c'

/-- Drops leading whitespace from a character list. -/
def dropSpaces : List Char → List Char
  | [] => []
  | c :: rest => if isPySpace c then dropSpaces rest else c :: rest

/-- Models the Python `strip` method: removes leading and trailing
whitespace. -/
def trimChars (cs : List Char) : List Char :=
  (dropSpaces (dropSpaces cs).reverse).reverse

/-- Models the Python `lower` method, character by character. -/
def lowerChars (cs : List Char) : List Char :=
  cs.map Char.toLower

/-- Models the Python maximum of two numbers, `max(a, b)`. -/
def pyMax (a b : ℚ) : ℚ := if a ≤ b then b else a

/-- Models the Python maximum of two integers, `max(a, b)`. -/
def pyMaxInt (a b : Int) : Int := if a ≤ b then b else a

/-- Models the Python builtin `abs` on a number. -/
def pyAbs (q : ℚ) : ℚ := if q < 0 then -q else q

/-- Splits a character list at the first `e` or `E` (exponent marker). -/
def splitAtExp : List Char → List Char × Option (List Char)
  | [] => ([], none)
  | c :: rest =>
      if c == 'e' || c == 'E' then ([], some rest)
      else
        let (a, b) := splitAtExp rest
        (c :: a, b)

/-- Parses the mantissa of a decimal literal: digits, optionally with a
dot and fraction digits; at least one digit overall. -/
def parseMantissa (cs : List Char) : Option ℚ :=
  let (ip, rest) := cs.span (fun c => c.isDigit)
  match rest with
  | [] => if ip.isEmpty then none else some (digitsVal ip : ℚ)
  | '.' :: fp =>
      if fp.all (fun c => c.isDigit) && !(ip.isEmpty && fp.isEmpty) then
        some ((digitsVal ip : ℚ) + (digitsVal fp : ℚ) / (10 : ℚ) ^ fp.length)
      else none
  | _ => none

/-- Parses an optionally signed all-digit exponent. -/
def parseExpInt (cs : List Char) : Option Int :=
  let (sg, ds) :=
    match cs with
    | '-' :: rest => ((-1 : Int), rest)
    | '+' :: rest => ((1 : Int), rest)
    | _ => ((1 : Int), cs)
  if ds.isEmpty || !ds.all (fun c => c.isDigit) then none
  else some (sg * (digitsVal ds : Int))

/-- Models the Python builtin `float` applied to a string: surrounding
whitespace is stripped, then a plain decimal literal with optional sign,
fraction and exponent is accepted (the special forms inf and nan are not
modelled); any other string raises, embedded as `none`. -/
def parseFloatStr (s : String) : Option ℚ :=
  let cs := trimChars s.toList
  let (sign, cs) :=
    match cs with
    | '-' :: rest => ((-1 : ℚ), rest)
    | '+' :: rest => ((1 : ℚ), rest)
    | _ => ((1 : ℚ), cs)
  let (mant, expPart) := splitAtExp cs
  match parseMantissa mant, expPart with
  | some m, none => some (sign * m)
  | some m, some ec => (parseExpInt ec).map (fun e => sign * m * (10 : ℚ) ^ e)
  | none, _ => none

/-- Models the Python builtin `int` applied to a string: surrounding
whitespace stripped, optional sign, all digits. -/
def parseIntStr (s : String) : Option Int :=
  let cs := trimChars s.toList
  let (sg, ds) :=
    match cs with
    | '-' :: rest => ((-1 : Int), rest)
    | '+' :: rest => ((1 : Int), rest)
    | _ => ((1 : Int), cs)
  if ds.isEmpty || !ds.all (fun c => c.isDigit) then none
  else some (sg * (digitsVal ds : Int))

/-- Truncation toward zero, the semantics of Python `int(float)`. -/
def ratTrunc (q : ℚ) : Int :=
  if q.num < 0 then -((-q.num) / (q.den : Int)) else q.num / (q.den : Int)

/-- Models the Python builtin `float` on a cell value; `Except.error`
stands for the TypeError/ValueError it raises. -/
def pyFloat : Value → Except Unit ℚ
  | .vNone => .error ()
  | .vStr s =>
      match parseFloatStr s with
      | some q => .ok q
      | none => .error ()
  | .vInt n => .ok (n : ℚ)
  | .vFloat q => .ok q
  | .vBool b => .ok (if b then 1 else 0)
  | .vDate _ => .error ()

/-- Models the Python builtin `int` on a cell value. -/
def pyIntFn : Value → Except Unit Int
  | .vNone => .error ()
  | .vStr s =>
      match parseIntStr s with
      | some n => .ok n
      | none => .error ()
  | .vInt n => .ok n
  | .vFloat q => .ok (ratTrunc q)
  | .vBool b => .ok (if b then 1 else 0)
  | .vDate _ => .error ()

/-- Models the Python builtin `str` on a cell value (total, never
raises); only the string branch is exercised by the claims, the number
renderings are a plain decimal approximation of the Python repr. -/
def pyStr : Value → String
  | .vNone => "None"
  | .vStr s => s
  | .vInt n => toString n
  | .vFloat q => toString q
  | .vBool b => if b then "True" else "False"
  | .vDate d => toString d

/-- Day number of a proleptic Gregorian calendar date, days since
1970-01-01 (the days-from-civil algorithm; the era is the floor of
y2 / 400, and the remaining divisions are applied to nonnegative
operands). -/
def daysFromCivil (y m d : Int) : Int :=
  let y2 := if m ≤ 2 then y - 1 else y
  let era := y2 / 400
  let yoe := y2 - era * 400
  let mp := if 2 < m then m - 3 else m + 9
  let doy := (153 * mp + 2) / 5 + d - 1
  let doe := yoe * 365 + yoe / 4 - yoe / 100 + doy
  era * 146097 + doe - 719468

/-- Leap year of the Gregorian calendar. -/
def isLeap (y : Nat) : Bool :=
  (y % 4 == 0 && y % 100 != 0) || (y % 400 == 0)

/-- Number of days of a month. -/
def daysInMonth (y m : Nat) : Nat :=
  if m == 2 then (if isLeap y then 29 else 28)
  else if m == 4 || m == 6 || m == 9 || m == 11 then 30
  else 31

/-- Digit run to number, requiring a nonempty all-digit run. -/
def digitsToNat : List Char → Option Nat
  | [] => none
  | cs => if cs.all (fun c => c.isDigit) then some (digitsVal cs) else none

/-- Splits a character list at every dash. -/
def splitDash : List Char → List (List Char)
  | [] => [[]]
  | c :: rest =>
      match splitDash rest with
      | [] => [[]]
      | g :: gs => if c == '-' then [] :: g :: gs else (c :: g) :: gs

/-- Parses an ISO `YYYY-MM-DD` date string into a day number, checking
calendar validity as pd.to_datetime does. -/
def parseISODate (s : String) : Option Int :=
  match ((splitDash (trimChars s.toList)).map digitsToNat) with
  | [some y, some m, some d] =>
      if 1 ≤ m && m ≤ 12 && 1 ≤ d && d ≤ daysInMonth y m then
        some (daysFromCivil (y : Int) (m : Int) (d : Int))
      else none
  | _ => none

/-- Mirrors `parse_date_safe` (streamlit_gl_recon_simple.py lines
45-51): None and NA yield None; otherwise pd.to_datetime inside a
try/except, so an unparseable value also yields None and no exception
escapes. pd.to_datetime is modelled for already-parsed dates and ISO
strings; every other input kind is treated as raising inside the try. -/
def parse_date_safe (x : Value) : Option Int :=
  match x with
  | .vNone => none
  | .vDate d => some d
  | .vStr s => parseISODate s
  | _ => none

/-- Mirrors `to_bool` (streamlit_gl_recon_simple.py lines 53-58): a
string is stripped, lowercased and tested for membership of
y/yes/true/1; an int or float (Python bool included) goes through
`bool(x)`, i.e. nonzero; anything else is False. -/
def to_bool (x : Value) : Bool :=
  match x with
  | .vStr s => ["y", "yes", "true", "1"].contains (String.mk (lowerChars (trimChars s.toList)))
  | .vInt n => n != 0
  | .vFloat q => q != 0
  | .vBool b => b
  | _ => false

/-- The criteria configuration, with the already-coerced field types the
two callers supply (the streamlit sidebar applies int/float/bool itself,
and the batch-script defaults of lines 156-163 are of these types), so
that the `float(crit.get(...))`/`int(...)`/`bool(...)` coercions inside
`evaluate` are identities. -/
structure Criteria where
  timeliness_sla_days : Int
  tieout_tolerance_abs : ℚ
  tieout_tolerance_pct : ℚ
  require_sod : Bool
  allow_items_over_threshold_with_plan : Bool
  aging_threshold_days : Int
deriving DecidableEq

/-- One normalized input row: every standard column holds a raw cell
value (an absent column was filled with None by the normalizer, an
absent cell is None). -/
structure RawRecord where
  entity : Value
  account_id : Value
  account_name : Value
  period_start_date : Value
  period_end_date : Value
  gl_ending_balance : Value
  subledger_ending_balance : Value
  preparer : Value
  prepared_on : Value
  approver : Value
  approved_on : Value
  reconciling_items_count : Value
  items_over_aging_threshold : Value
  action_plan_present : Value
  documentation_links : Value
deriving DecidableEq

/-- The values of the local variables of the evaluator loop body after
the field-coercion block (streamlit_gl_recon_simple.py lines 70-82). -/
structure Coerced where
  entity : Value
  account_id : Value
  account_name : Value
  period_end : Option Int
  gl_bal : ℚ
  sub_bal : ℚ
  preparer : String
  approver : String
  prepared_on : Option Int
  approved_on : Option Int
  items_over : Int
  plan : Bool
  evidence : Value
deriving DecidableEq

/-- Mirrors the coercion block, lines 70-82: the three numeric
coercions `float(... or 0.0)` / `int(... or 0)` are the only
expressions of the block that can raise; all coercions are otherwise as
in the source, in particular preparer and approver are
`str(r.get(...) or "")` and evidence is `r.get(...) or ""`. The three
fallible coercions are matched jointly; since the embedded exception
carries no payload, this is observably the same as the Python
left-to-right evaluation order. -/
def coerceRecord (r : RawRecord) : Except Unit Coerced :=
  match pyFloat (pyOr r.gl_ending_balance (Value.vFloat 0)),
        pyFloat (pyOr r.subledger_ending_balance (Value.vFloat 0)),
        pyIntFn (pyOr r.items_over_aging_threshold (Value.vInt 0)) with
  | .ok gl_bal, .ok sub_bal, .ok items_over =>
      .ok { entity := r.entity
            account_id := r.account_id
            account_name := r.account_name
            period_end := parse_date_safe r.period_end_date
            gl_bal := gl_bal
            sub_bal := sub_bal
            preparer := pyStr (pyOr r.preparer (Value.vStr ""))
            approver := pyStr (pyOr r.approver (Value.vStr ""))
            prepared_on := parse_date_safe r.prepared_on
            approved_on := parse_date_safe r.approved_on
            items_over := items_over
            plan := to_bool r.action_plan_present
            evidence := pyOr r.documentation_links (Value.vStr "") }
  | _, _, _ => .error ()

/-- Line 85: `variance = gl_bal - sub_bal`. -/
def variance (c : Coerced) : ℚ := c.gl_bal - c.sub_bal

/-- Line 88: `tol = max(tol_abs, abs(gl_bal) * tol_pct)`. -/
def tieout_tol (crit : Criteria) (c : Coerced) : ℚ :=
  pyMax crit.tieout_tolerance_abs (pyAbs c.gl_bal * crit.tieout_tolerance_pct)

/-- Line 89: `tieout_pass = abs(variance) <= tol`. -/
def tieout_pass (crit : Criteria) (c : Coerced) : Bool :=
  decide (pyAbs (variance c) ≤ tieout_tol crit c)

/-- Line 93: `sod_pass = (preparer != approver) if sod_required else True`. -/
def sod_pass (crit : Criteria) (c : Coerced) : Bool :=
  match crit.require_sod with
  | true => c.preparer != c.approver
  | false => true

/-- Lines 97-101: `sla_over`, None unless both dates are present, else
`max(0, delta_days - sla_days)`. -/
def sla_over (crit : Criteria) (c : Coerced) : Option Int :=
  match c.approved_on, c.period_end with
  | some a, some p => some (pyMaxInt 0 ((a - p) - crit.timeliness_sla_days))
  | _, _ => none

/-- Lines 98-102: `timely_pass`, vacuously True unless both dates are
present, else `delta_days <= sla_days`. -/
def timely_pass (crit : Criteria) (c : Coerced) : Bool :=
  match c.approved_on, c.period_end with
  | some a, some p => decide ((a - p) ≤ crit.timeliness_sla_days)
  | _, _ => true

/-- Line 106: `aging_pass = (items_over == 0) or (allow_over_with_plan and plan)`. -/
def aging_pass (crit : Criteria) (c : Coerced) : Bool :=
  (c.items_over == 0) || (crit.allow_items_over_threshold_with_plan && c.plan)

/-- Lines 111-113: on tie-out failure the running severity is set to
high, otherwise it is left unchanged. -/
def sevAfterTieoutStep : Bool → String → String
  | false, _ => "high"
  | true, sev => sev

/-- Lines 114-116: on SoD failure the running severity is set to high,
otherwise it is left unchanged. -/
def sevAfterSodStep : Bool → String → String
  | false, _ => "high"
  | true, sev => sev

/-- Lines 117-119: on timeliness failure the running severity becomes
medium unless it is already high; on a passing check it is unchanged. -/
def sevAfterTimelyStep : Bool → String → String
  | false, sev => if sev ≠ "high" then "medium" else "high"
  | true, sev => sev

/-- Lines 120-122: on aging failure the running severity becomes medium
only when it is still low; on a passing check it is unchanged. -/
def sevAfterAgingStep : Bool → String → String
  | false, sev => if sev = "low" then "medium" else sev
  | true, sev => sev

/-- The running severity after the tie-out check (initialized to low at
line 110). -/
def sev1 (crit : Criteria) (c : Coerced) : String :=
  sevAfterTieoutStep (tieout_pass crit c) "low"

/-- The running severity after the SoD check. -/
def sev2 (crit : Criteria) (c : Coerced) : String :=
  sevAfterSodStep (sod_pass crit c) (sev1 crit c)

/-- The running severity after the timeliness check. -/
def sev3 (crit : Criteria) (c : Coerced) : String :=
  sevAfterTimelyStep (timely_pass crit c) (sev2 crit c)

/-- The final severity, after the aging check. -/
def finalSeverity (crit : Criteria) (c : Coerced) : String :=
  sevAfterAgingStep (aging_pass crit c) (sev3 crit c)

/-- Rank of a severity string for monotonicity statements:
low < medium < high. -/
def sevRank (s : String) : Nat :=
  if s = "high" then 2 else if s = "medium" then 1 else 0

/-- Floor of a rational as an integer (floor division of the reduced
numerator by the denominator). -/
def ratFloor (q : ℚ) : Int := q.num.fdiv (q.den : Int)

/-- Groups a reversed digit run with a comma every three digits. -/
def commaGroupRev : List Char → Nat → List Char
  | [], _ => []
  | c :: rest, k =>
      c :: (if (k + 1) % 3 == 0 && !rest.isEmpty
            then ',' :: commaGroupRev rest (k + 1)
            else commaGroupRev rest (k + 1))

/-- Thousands grouping of an all-digit string. -/
def groupThousands (s : String) : String :=
  String.mk (commaGroupRev s.toList.reverse 0).reverse

/-- Models the Python format spec `,.2f`: two decimals and thousands
separators (the half-to-even tie-breaking of Python rounding is
approximated by round-half-up; no claim depends on message text). -/
def fmtCommas2 (q : ℚ) : String :=
  let cents : Int := ratFloor (q * 100 + 1 / 2)
  let n := cents.natAbs
  let ip := n / 100
  let fp := n % 100
  (if cents < 0 then "-" else "") ++ groupThousands (toString ip) ++ "." ++
    (if fp < 10 then "0" else "") ++ toString fp

/-- The tie-out failure message of line 112. -/
def tieoutMsg (crit : Criteria) (c : Coerced) : String :=
  "Tie-out variance " ++ fmtCommas2 (variance c) ++ " exceeds tolerance " ++
    fmtCommas2 (tieout_tol crit c)

/-- The timeliness failure message of line 118. -/
def timelyMsg (crit : Criteria) (c : Coerced) : String :=
  "Approval exceeded SLA by " ++
    (match sla_over crit c with
     | some k => toString k
     | none => "None") ++ " day(s)"

/-- The message a failing check appends (lines 112, 115, 118, 121): a
singleton on failure, nothing on a pass. -/
def failMsgIf : Bool → String → List String
  | false, msg => [msg]
  | true, _ => []

/-- The failure list accumulated by lines 109-122, in check order. -/
def failures (crit : Criteria) (c : Coerced) : List String :=
  failMsgIf (tieout_pass crit c) (tieoutMsg crit c) ++
  failMsgIf (sod_pass crit c) "Segregation of duties failed (preparer equals approver)" ++
  failMsgIf (timely_pass crit c) (timelyMsg crit c) ++
  failMsgIf (aging_pass crit c) "Aged items without action plan"

/-- Line 124: pass when no failures, else fail when the final severity
is high, else warn. -/
def statusOf (crit : Criteria) (c : Coerced) : String :=
  if failures crit c = [] then "pass"
  else if finalSeverity crit c = "high" then "fail" else "warn"

/-- Line 125: the rationale string. -/
def rationaleOf (crit : Criteria) (c : Coerced) : String :=
  if failures crit c = [] then "All checks passed within thresholds."
  else String.intercalate " | " (failures crit c)

/-- One output row (the batch script fields; the streamlit app emits
the same dictionary without the last two fields). -/
structure EvaluationResult where
  entity : Value
  account_id : Value
  account_name : Value
  period_end_date : Option Int
  status : String
  severity : String
  rationale : String
  variance_amount : ℚ
  sla_days_over : Int
  sod_violation : Bool
  aged_items_flag : Bool
  evidence_link : Value
  agent_run_id : String
  checklist_version : String
deriving DecidableEq

/-- The result row built at lines 127-142 from the coerced locals. -/
def evalCoerced (crit : Criteria) (checklistVersion runId : String)
    (c : Coerced) : EvaluationResult :=
  { entity := c.entity
    account_id := c.account_id
    account_name := c.account_name
    period_end_date := c.period_end
    status := statusOf crit c
    severity := finalSeverity crit c
    rationale := rationaleOf crit c
    variance_amount := variance c
    sla_days_over := (sla_over crit c).getD 0
    sod_violation := !(sod_pass crit c)
    aged_items_flag := !(aging_pass crit c)
    evidence_link := c.evidence
    agent_run_id := runId
    checklist_version := checklistVersion }

/-- The evaluator loop body for one record: coercion then the checks;
an exception of the coercions propagates. -/
def evalRecord (crit : Criteria) (checklistVersion runId : String)
    (r : RawRecord) : Except Unit EvaluationResult :=
  (coerceRecord r).map (evalCoerced crit checklistVersion runId)

/-- Mirrors `evaluate` (lines 66-143): one pass over the records in
input order, accumulating one result row per record; `runId` is the
utcnow-derived timestamp the source computes once per invocation at line
68, made an explicit input here. An exception of the loop body aborts
the whole call, as in Python. -/
def evaluate (df : List RawRecord) (crit : Criteria)
    (checklistVersion runId : String) : Except Unit (List EvaluationResult) :=
  match df with
  | [] => .ok []
  | r :: rest => do
      let e ← evalRecord crit checklistVersion runId r
      let tail ← evaluate rest crit checklistVersion runId
      .ok (e :: tail)

/-- The default criteria of the batch script, lines 156-163. -/
def defaultCriteria : Criteria :=
  { timeliness_sla_days := 5
    tieout_tolerance_abs := 1000
    tieout_tolerance_pct := 1 / 500
    require_sod := true
    allow_items_over_threshold_with_plan := true
    aging_threshold_days := 60 }

/-- A record whose every column is the None cell. -/
def blankRecord : RawRecord :=
  { entity := .vNone
    account_id := .vNone
    account_name := .vNone
    period_start_date := .vNone
    period_end_date := .vNone
    gl_ending_balance := .vNone
    subledger_ending_balance := .vNone
    preparer := .vNone
    prepared_on := .vNone
    approver := .vNone
    approved_on := .vNone
    reconciling_items_count := .vNone
    items_over_aging_threshold := .vNone
    action_plan_present := .vNone
    documentation_links := .vNone }

/-- The boolean-coercion rule exactly as the specification words it
(a reference definition for the refinement comparison of the coercion
claim, following the words: case-insensitive membership in
y/yes/true/1 yields true, any other string yields false, a number is
true iff nonzero, None is false). -/
def spec_to_bool (x : Value) : Bool :=
  match x with
  | .vStr s => ["y", "yes", "true", "1"].contains (String.mk (lowerChars s.toList))
  | .vInt n => n != 0
  | .vFloat q => q != 0
  | .vBool b => b
  | _ => false

/-- Erases the invocation-timestamp field of a result row, leaving the
pure function of record and criteria. -/
def dropRunId (e : EvaluationResult) : EvaluationResult :=
  { e with agent_run_id := "" }

/-- The coerced locals produced from `blankRecord`. -/
def blankCoerced : Coerced :=
  { entity := .vNone
    account_id := .vNone
    account_name := .vNone
    period_end := none
    gl_bal := 0
    sub_bal := 0
    preparer := ""
    approver := ""
    prepared_on := none
    approved_on := none
    items_over := 0
    plan := false
    evidence := .vStr "" }

/-- Scenario B criteria: default criteria with the absolute tie-out
tolerance lowered to 100. -/
def scenarioB_crit : Criteria :=
  { defaultCriteria with tieout_tolerance_abs := 100 }

/-- Scenario B record: GL 100000, subledger 100500, distinct preparer
and approver, everything else absent. -/
def scenarioB_record : RawRecord :=
  { blankRecord with
    gl_ending_balance := Value.vFloat 100000
    subledger_ending_balance := Value.vFloat 100500
    preparer := Value.vStr "A"
    approver := Value.vStr "B" }

/-- The coerced locals produced from `scenarioB_record`. -/
def scenarioB_coerced : Coerced :=
  { blankCoerced with gl_bal := 100000, sub_bal := 100500, preparer := "A", approver := "B" }

/-- Scenario C coerced locals: the same person prepared and approved. -/
def scenarioC_coerced : Coerced :=
  { blankCoerced with preparer := "J.Lee", approver := "J.Lee" }

/-- Scenario D record: period end 2024-01-31, approved 2024-02-10,
distinct preparer and approver, everything else absent. -/
def scenarioD_record : RawRecord :=
  { blankRecord with
    period_end_date := Value.vStr "2024-01-31"
    approved_on := Value.vStr "2024-02-10"
    preparer := Value.vStr "A"
    approver := Value.vStr "B" }

/-- The coerced locals produced from `scenarioD_record` (the two ISO
dates parse to day numbers 19753 and 19763). -/
def scenarioD_coerced : Coerced :=
  { blankCoerced with
    period_end := some 19753
    approved_on := some 19763
    preparer := "A"
    approver := "B" }

/-- Scenario E coerced locals: three aged items and no action plan,
every other check passing. -/
def scenarioE_coerced : Coerced :=
  { blankCoerced with items_over := 3, preparer := "A", approver := "B" }

/-- A record on which every check passes under the default criteria. -/
def passRecord : RawRecord :=
  { blankRecord with preparer := Value.vStr "A", approver := Value.vStr "B" }

/-- The coerced locals produced from `passRecord`. -/
def passCoerced : Coerced :=
  { blankCoerced with preparer := "A", approver := "B" }

/-- A record whose GL balance cell holds a truthy, numerically
unparseable string, on which the Python evaluator raises ValueError. -/
def c3BadRecord : RawRecord :=
  { blankRecord with gl_ending_balance := Value.vStr "abc" }

/-- A record whose numeric cells are parseable strings and numbers. -/
def c3OkRecord : RawRecord :=
  { blankRecord with
    gl_ending_balance := Value.vStr "100.5"
    subledger_ending_balance := Value.vInt 3
    items_over_aging_threshold := Value.vStr "2" }

/-- The result list of one fixed evaluator invocation, used to witness
the list-level properties on a concrete input. -/
def c9Res : List EvaluationResult :=
  (evaluate [blankRecord] defaultCriteria "v1" "20240101000000").toOption.getD []

end GLRecon

open GLRecon

/-! Bridge lemmas between the executable models of the Python builtins
and the mathematical operations the specification speaks of. -/

theorem pyMax_eq_max (a b : ℚ) : pyMax a b = max a b := by
  unfold pyMax
  by_cases h : a ≤ b
  · rw [if_pos h, max_eq_right h]
  · rw [if_neg h, max_eq_left (le_of_not_le h)]

theorem pyMaxInt_eq_max (a b : Int) : pyMaxInt a b = max a b := by
  unfold pyMaxInt
  by_cases h : a ≤ b
  · rw [if_pos h, max_eq_right h]
  · rw [if_neg h, max_eq_left (le_of_not_le h)]

theorem pyAbs_eq_abs (q : ℚ) : pyAbs q = |q| := by
  unfold pyAbs
  by_cases h : q < 0
  · rw [if_pos h, abs_of_neg h]
  · rw [if_neg h, abs_of_nonneg (not_lt.mp h)]

/-! Severity rank facts and monotonicity of the four escalation steps. -/

theorem sevRank_le_two (s : String) : sevRank s ≤ 2 := by
  unfold sevRank
  split
  · omega
  · split <;> omega

theorem sevRank_le_one_of_ne_high (s : String) (h : s ≠ "high") : sevRank s ≤ 1 := by
  unfold sevRank
  rw [if_neg h]
  split <;> omega

theorem sevAfterTieoutStep_mono (b : Bool) (s : String) :
    sevRank s ≤ sevRank (sevAfterTieoutStep b s) := by
  cases b
  · exact le_trans (sevRank_le_two s) (le_of_eq rfl)
  · exact le_rfl

theorem sevAfterSodStep_mono (b : Bool) (s : String) :
    sevRank s ≤ sevRank (sevAfterSodStep b s) := by
  cases b
  · exact le_trans (sevRank_le_two s) (le_of_eq rfl)
  · exact le_rfl

theorem sevAfterTimelyStep_mono (b : Bool) (s : String) :
    sevRank s ≤ sevRank (sevAfterTimelyStep b s) := by
  cases b
  · by_cases h : s = "high"
    · subst h
      simp [sevAfterTimelyStep]
    · have h1 : sevAfterTimelyStep false s = "medium" := by
        simp [sevAfterTimelyStep, h]
      rw [h1]
      exact sevRank_le_one_of_ne_high s h
  · exact le_rfl

theorem sevAfterAgingStep_mono (b : Bool) (s : String) :
    sevRank s ≤ sevRank (sevAfterAgingStep b s) := by
  cases b
  · by_cases h : s = "low"
    · subst h
      have h1 : sevAfterAgingStep false "low" = "medium" := rfl
      rw [h1]
      decide
    · have h1 : sevAfterAgingStep false s = s := by
        simp [sevAfterAgingStep, h]
      rw [h1]
  · exact le_rfl

/-- Successful coercion determines the evaluator output. -/
theorem evalRecord_ok (crit : Criteria) (v t : String) (r : RawRecord) (c : Coerced)
    (hc : coerceRecord r = Except.ok c) :
    evalRecord crit v t r = Except.ok (evalCoerced crit v t c) := by
  unfold evalRecord
  rw [hc]
  rfl

/-- C7: within the evaluation of a single record, the running severity
value is monotonically non-decreasing in the order low, medium, high
across the fixed check sequence tie-out, SoD, timeliness, aging:
starting from low, no check lowers the severity established before. -/
theorem C7_severity_monotone (crit : Criteria) (c : Coerced) :
    sevRank "low" ≤ sevRank (sev1 crit c)
  ∧ sevRank (sev1 crit c) ≤ sevRank (sev2 crit c)
  ∧ sevRank (sev2 crit c) ≤ sevRank (sev3 crit c)
  ∧ sevRank (sev3 crit c) ≤ sevRank (finalSeverity crit c) :=
  ⟨sevAfterTieoutStep_mono (tieout_pass crit c) "low",
   sevAfterSodStep_mono (sod_pass crit c) (sev1 crit c),
   sevAfterTimelyStep_mono (timely_pass crit c) (sev2 crit c),
   sevAfterAgingStep_mono (aging_pass crit c) (sev3 crit c)⟩

/-- C2: the tie-out check computes the variance as the GL balance minus
the subledger balance exactly, resolves the tolerance as the maximum of
the absolute tolerance and the GL magnitude times the percentage
tolerance, and passes iff the absolute variance is at most that
tolerance; on the scenario with GL 100000, subledger 100500, absolute
tolerance 100 and percentage 0.002, the tolerance is 200, the tie-out
fails, the severity is high and the status is fail. -/
theorem C2_tieout (crit : Criteria) (v t : String) (c : Coerced) :
    (evalCoerced crit v t c).variance_amount = c.gl_bal - c.sub_bal
  ∧ tieout_tol crit c = max crit.tieout_tolerance_abs (|c.gl_bal| * crit.tieout_tolerance_pct)
  ∧ (tieout_pass crit c = true ↔ |c.gl_bal - c.sub_bal| ≤ tieout_tol crit c)
  ∧ (coerceRecord scenarioB_record).toOption = some scenarioB_coerced
  ∧ tieout_tol scenarioB_crit scenarioB_coerced = 200
  ∧ tieout_pass scenarioB_crit scenarioB_coerced = false
  ∧ (evalRecord scenarioB_crit v t scenarioB_record).toOption.map EvaluationResult.severity
      = some "high"
  ∧ (evalRecord scenarioB_crit v t scenarioB_record).toOption.map EvaluationResult.status
      = some "fail" := by
  refine ⟨rfl, ?_, ?_, by with_unfolding_all rfl, by with_unfolding_all rfl,
    by with_unfolding_all rfl, by with_unfolding_all rfl, by with_unfolding_all rfl⟩
  · rw [tieout_tol, pyMax_eq_max, pyAbs_eq_abs]
  · simp [tieout_pass, variance, pyAbs_eq_abs]

/-- C4: when either of approval date and period end is null the
timeliness check passes and the reported days over SLA is zero;
otherwise, with the day delta of the two dates, the check passes iff
the delta is at most the SLA and the reported days over SLA is the
positive part of delta minus SLA; on the scenario with period end
2024-01-31, approval 2024-02-10 and SLA 5 the delta is 10, the days
over SLA are 5, the check fails and the severity is at least medium. -/
theorem C4_timeliness (crit : Criteria) (v t : String) (c : Coerced) :
    ((c.approved_on = none ∨ c.period_end = none) →
        timely_pass crit c = true ∧ (evalCoerced crit v t c).sla_days_over = 0)
  ∧ (∀ a p : Int, c.approved_on = some a → c.period_end = some p →
        ((timely_pass crit c = true ↔ a - p ≤ crit.timeliness_sla_days)
          ∧ (evalCoerced crit v t c).sla_days_over
              = max 0 ((a - p) - crit.timeliness_sla_days)))
  ∧ (coerceRecord scenarioD_record).toOption = some scenarioD_coerced
  ∧ timely_pass defaultCriteria scenarioD_coerced = false
  ∧ (evalRecord defaultCriteria v t scenarioD_record).toOption.map
      EvaluationResult.sla_days_over = some 5
  ∧ 1 ≤ sevRank (finalSeverity defaultCriteria scenarioD_coerced) := by
  refine ⟨?_, ?_, by with_unfolding_all rfl, by with_unfolding_all rfl,
    by with_unfolding_all rfl, by with_unfolding_all decide⟩
  · intro h
    rcases hA : c.approved_on with _ | a <;> rcases hP : c.period_end with _ | p <;>
      simp_all [timely_pass, sla_over, evalCoerced]
  · intro a p hA hP
    constructor
    · simp [timely_pass, hA, hP]
    · simp [evalCoerced, sla_over, hA, hP, pyMaxInt_eq_max]

/-- C4 witness: the timeliness facts applied to concrete inputs, the
scenario D coerced record with both dates present and the blank record
with both dates absent. -/
theorem C4_witness :
    ((timely_pass defaultCriteria scenarioD_coerced = true ↔ (19763 : Int) - 19753 ≤ 5)
      ∧ (evalCoerced defaultCriteria "v1" "t0" scenarioD_coerced).sla_days_over
          = max 0 (((19763 : Int) - 19753) - 5))
  ∧ (timely_pass defaultCriteria blankCoerced = true
      ∧ (evalCoerced defaultCriteria "v1" "t0" blankCoerced).sla_days_over = 0) :=
  ⟨(C4_timeliness defaultCriteria "v1" "t0" scenarioD_coerced).2.1 19763 19753 rfl rfl,
   (C4_timeliness defaultCriteria "v1" "t0" blankCoerced).1 (Or.inl rfl)⟩

/-- C5: when SoD is not required the SoD check passes; when required it
passes iff preparer and approver differ as exact strings; and a record
whose preparer equals its approver under required SoD is marked as an
SoD violation with severity high and status fail, regardless of every
other check. -/
theorem C5_sod (crit : Criteria) (v t : String) (c : Coerced) :
    (crit.require_sod = false → sod_pass crit c = true)
  ∧ (crit.require_sod = true → (sod_pass crit c = true ↔ c.preparer ≠ c.approver))
  ∧ (crit.require_sod = true → c.preparer = c.approver →
        (evalCoerced crit v t c).sod_violation = true
        ∧ (evalCoerced crit v t c).severity = "high"
        ∧ (evalCoerced crit v t c).status = "fail") := by
  refine ⟨?_, ?_, ?_⟩
  · intro h
    simp [sod_pass, h]
  · intro h
    simp [sod_pass, h]
  · intro h he
    have hsp : sod_pass crit c = false := by
      simp [sod_pass, h, he]
    refine ⟨by simp [evalCoerced, hsp], ?_, ?_⟩
    · cases hb1 : tieout_pass crit c <;> cases hb3 : timely_pass crit c <;>
        cases hb4 : aging_pass crit c <;>
        simp [evalCoerced, finalSeverity, sev3, sev2, sev1, hsp, hb1, hb3, hb4,
          sevAfterTieoutStep, sevAfterSodStep, sevAfterTimelyStep, sevAfterAgingStep]
    · cases hb1 : tieout_pass crit c <;> cases hb3 : timely_pass crit c <;>
        cases hb4 : aging_pass crit c <;>
        simp [evalCoerced, statusOf, failures, failMsgIf, finalSeverity, sev3, sev2,
          sev1, hsp, hb1, hb3, hb4, sevAfterTieoutStep, sevAfterSodStep,
          sevAfterTimelyStep, sevAfterAgingStep]

/-- C5 witness: scenario C, the same person as preparer and approver
under required SoD, is an SoD violation with severity high and status
fail. -/
theorem C5_witness :
    (evalCoerced defaultCriteria "v1" "t0" scenarioC_coerced).sod_violation = true
  ∧ (evalCoerced defaultCriteria "v1" "t0" scenarioC_coerced).severity = "high"
  ∧ (evalCoerced defaultCriteria "v1" "t0" scenarioC_coerced).status = "fail" :=
  (C5_sod defaultCriteria "v1" "t0" scenarioC_coerced).2.2 rfl rfl

/-- C6: the aging check passes iff there are no items over the aging
threshold or the criteria allow them with a present action plan; on
failure the step raises a low severity to medium, leaves medium and
high unchanged, and can never produce high from a non-high severity;
on a pass it changes nothing. -/
theorem C6_aging (crit : Criteria) (v t : String) (c : Coerced) :
    (aging_pass crit c = true ↔
        (c.items_over = 0
          ∨ (crit.allow_items_over_threshold_with_plan = true ∧ c.plan = true)))
  ∧ (evalCoerced crit v t c).severity
      = sevAfterAgingStep (aging_pass crit c) (sev3 crit c)
  ∧ sevAfterAgingStep false "low" = "medium"
  ∧ sevAfterAgingStep false "medium" = "medium"
  ∧ sevAfterAgingStep false "high" = "high"
  ∧ (∀ (b : Bool) (s : String), sevAfterAgingStep b s = "high" → s = "high")
  ∧ (∀ s : String, sevAfterAgingStep true s = s) := by
  refine ⟨?_, rfl, rfl, rfl, rfl, ?_, fun s => rfl⟩
  · simp [aging_pass]
  · intro b s h
    cases b
    · by_cases hs : s = "low"
      · simp [sevAfterAgingStep, hs] at h
      · simpa [sevAfterAgingStep, hs] using h
    · exact h

/-- C6 witness: the aging step facts applied at concrete inputs, with
scenario E exercising the failing aging check. -/
theorem C6_witness :
    aging_pass defaultCriteria scenarioE_coerced = false
  ∧ ("high" : String) = "high" :=
  ⟨by
    cases hb : aging_pass defaultCriteria scenarioE_coerced
    · rfl
    · exact absurd (((C6_aging defaultCriteria "v1" "t0" scenarioE_coerced).1).mp hb)
        (by decide),
   (C6_aging defaultCriteria "v1" "t0" scenarioE_coerced).2.2.2.2.2.1 false "high" rfl⟩

/-- C1: for a record whose evaluation completes, the status is pass iff
all four per-check predicates hold, iff the failure list is empty; the
status is fail iff the final severity is high, which holds iff the
tie-out check failed or the SoD check failed; and the status is always
one of pass, fail and warn, warn being forced in the remaining case of
a non-empty failure list with non-high severity. -/
theorem C1_aggregation (crit : Criteria) (v t : String) (r : RawRecord) (c : Coerced)
    (res : EvaluationResult)
    (hc : coerceRecord r = Except.ok c)
    (hr : evalRecord crit v t r = Except.ok res) :
    (res.status = "pass" ↔
        (tieout_pass crit c = true ∧ sod_pass crit c = true
          ∧ timely_pass crit c = true ∧ aging_pass crit c = true))
  ∧ (res.status = "pass" ↔ failures crit c = [])
  ∧ (res.status = "fail" ↔ res.severity = "high")
  ∧ (res.severity = "high" ↔ (tieout_pass crit c = false ∨ sod_pass crit c = false))
  ∧ (failures crit c ≠ [] → res.severity ≠ "high" → res.status = "warn") := by
  have hres : res = evalCoerced crit v t c := by
    rw [evalRecord_ok crit v t r c hc] at hr
    injection hr with h2
    exact h2.symm
  subst hres
  cases hb1 : tieout_pass crit c <;> cases hb2 : sod_pass crit c <;>
    cases hb3 : timely_pass crit c <;> cases hb4 : aging_pass crit c <;>
    simp [evalCoerced, statusOf, failures, failMsgIf, finalSeverity, sev3, sev2, sev1,
      sevAfterTieoutStep, sevAfterSodStep, sevAfterTimelyStep, sevAfterAgingStep,
      hb1, hb2, hb3, hb4]

/-- C1 witness: a concrete record on which every check passes has
status pass, and the remaining conjuncts applied at that record. -/
theorem C1_witness :
    (evalCoerced defaultCriteria "v1" "t0" passCoerced).status = "pass" := by
  have h := C1_aggregation defaultCriteria "v1" "t0" passRecord passCoerced
      (evalCoerced defaultCriteria "v1" "t0" passCoerced) rfl rfl
  exact h.1.mpr
    ⟨by with_unfolding_all rfl, by with_unfolding_all rfl,
     by with_unfolding_all rfl, by with_unfolding_all rfl⟩

/-- C3 counterexample: the numeric coercions are not exception-safe: a
record whose GL balance cell holds the truthy, unparseable string abc
makes the evaluator raise (the embedded error propagates), so evaluate
is not total over well-formed records. -/
theorem C3_counterexample :
    evalRecord defaultCriteria "v1" "t0" c3BadRecord = Except.error () := rfl

/-- C3 amended: date coercion never raises for any cell value (it is a
total function into an optional day number), and the evaluator is total
over every record whose three numeric cells coerce without error, in
particular whatever its date, string and boolean cells hold; an
unparseable truthy string in a numeric cell, however, raises. -/
theorem C3_amended (crit : Criteria) (v t : String) (r : RawRecord)
    (hg : (pyFloat (pyOr r.gl_ending_balance (Value.vFloat 0))).isOk = true)
    (hs : (pyFloat (pyOr r.subledger_ending_balance (Value.vFloat 0))).isOk = true)
    (hi : (pyIntFn (pyOr r.items_over_aging_threshold (Value.vInt 0))).isOk = true) :
    (evalRecord crit v t r).isOk = true := by
  obtain ⟨gb, hg2⟩ : ∃ a, pyFloat (pyOr r.gl_ending_balance (Value.vFloat 0)) = Except.ok a := by
    cases h2 : pyFloat (pyOr r.gl_ending_balance (Value.vFloat 0))
    · rw [h2] at hg
      simp [Except.isOk, Except.toBool] at hg
    · exact ⟨_, rfl⟩
  obtain ⟨sb, hs2⟩ : ∃ a, pyFloat (pyOr r.subledger_ending_balance (Value.vFloat 0)) = Except.ok a := by
    cases h2 : pyFloat (pyOr r.subledger_ending_balance (Value.vFloat 0))
    · rw [h2] at hs
      simp [Except.isOk, Except.toBool] at hs
    · exact ⟨_, rfl⟩
  obtain ⟨io, hi2⟩ : ∃ a, pyIntFn (pyOr r.items_over_aging_threshold (Value.vInt 0)) = Except.ok a := by
    cases h2 : pyIntFn (pyOr r.items_over_aging_threshold (Value.vInt 0))
    · rw [h2] at hi
      simp [Except.isOk, Except.toBool] at hi
    · exact ⟨_, rfl⟩
  simp [evalRecord, coerceRecord, hg2, hs2, hi2, Except.isOk, Except.toBool, Except.map]

/-- C3 witness: a record whose numeric cells hold parseable strings and
numbers evaluates without error. -/
theorem C3_witness : (evalRecord defaultCriteria "v1" "t0" c3OkRecord).isOk = true :=
  C3_amended defaultCriteria "v1" "t0" c3OkRecord
    (by with_unfolding_all rfl) (by with_unfolding_all rfl) (by with_unfolding_all rfl)

/-- C8 counterexample: the string of a space followed by yes coerces to
true, although its case-insensitive form is not a member of the
specified set (the source strips surrounding whitespace before the
membership test, which the stated rule omits). -/
theorem C8_counterexample :
    to_bool (Value.vStr " yes") = true ∧ spec_to_bool (Value.vStr " yes") = false :=
  ⟨rfl, rfl⟩

/-- C8 amended: boolean coercion is total and deterministic by
construction and yields true exactly for strings whose trimmed,
case-insensitive form is a member of y/yes/true/1 and for non-zero
numbers; it yields false for every other string, for numeric zero, for
None and for date values, and is the identity on booleans. -/
theorem C8_amended :
    (∀ s : String, to_bool (Value.vStr s) = true ↔
        String.mk (lowerChars (trimChars s.toList)) ∈ (["y", "yes", "true", "1"] : List String))
  ∧ (∀ n : Int, to_bool (Value.vInt n) = true ↔ n ≠ 0)
  ∧ (∀ q : ℚ, to_bool (Value.vFloat q) = true ↔ q ≠ 0)
  ∧ (∀ b : Bool, to_bool (Value.vBool b) = b)
  ∧ to_bool Value.vNone = false
  ∧ (∀ d : Int, to_bool (Value.vDate d) = false) := by
  refine ⟨?_, ?_, ?_, fun b => rfl, rfl, fun d => rfl⟩
  · intro s
    simp [to_bool, List.contains, List.elem_iff]
  · intro n
    simp [to_bool]
  · intro q
    simp [to_bool]

/-- Equal bind chains of the evaluator loop, unfolded one step. -/
theorem evaluate_cons (crit : Criteria) (v t : String) (r : RawRecord)
    (rs : List RawRecord) :
    evaluate (r :: rs) crit v t
      = (evalRecord crit v t r).bind (fun e =>
          (evaluate rs crit v t).bind (fun tail => Except.ok (e :: tail))) := rfl

/-- A single record evaluates, up to the invocation-timestamp field, to
the same row whatever the timestamp input is. -/
theorem evalRecord_dropRunId (crit : Criteria) (v t u : String) (r : RawRecord) :
    (evalRecord crit v t r).map dropRunId = (evalRecord crit v u r).map dropRunId := by
  unfold evalRecord
  cases coerceRecord r
  · rfl
  · rfl

/-- C9 counterexample: two invocations of evaluate on the equal record
list and criteria, differing only in the clock-derived run identifier
the source computes from utcnow, return different result sequences,
because each result row embeds that identifier in its agent_run_id
field; so the result is not a function of records and criteria alone. -/
theorem C9_counterexample :
    (evaluate [blankRecord] defaultCriteria "v1" "20240101000000").toOption
      ≠ (evaluate [blankRecord] defaultCriteria "v1" "20240101000001").toOption := by
  with_unfolding_all decide

/-- C9 amended: evaluate is deterministic in its inputs together with
the invocation timestamp: a successful run returns exactly one result
per input record in input order, the i-th result being the loop body
applied to the i-th record alone (no state is shared between record
evaluations), and two runs over equal records and criteria agree on
every field except the embedded run identifier. -/
theorem C9_amended (crit : Criteria) (v t u : String) (rs : List RawRecord)
    (res : List EvaluationResult)
    (h : evaluate rs crit v t = Except.ok res) :
    res.length = rs.length
  ∧ (∀ i (hi : i < rs.length) (hr2 : i < res.length),
        evalRecord crit v t (rs.get ⟨i, hi⟩) = Except.ok (res.get ⟨i, hr2⟩))
  ∧ (∃ res2, evaluate rs crit v u = Except.ok res2
        ∧ res2.map dropRunId = res.map dropRunId) := by
  induction rs generalizing res with
  | nil =>
      simp [evaluate] at h
      subst h
      refine ⟨rfl, ?_, ⟨[], rfl, rfl⟩⟩
      intro i hi _
      exact absurd hi (by simp)
  | cons r rs ih =>
      rw [evaluate_cons] at h
      cases he : evalRecord crit v t r with
      | error e =>
          rw [he] at h
          simp [Except.bind] at h
      | ok e =>
          rw [he] at h
          cases ht : evaluate rs crit v t with
          | error e2 =>
              rw [ht] at h
              simp [Except.bind] at h
          | ok tail =>
              rw [ht] at h
              simp only [Except.bind] at h
              injection h with h2
              subst h2
              obtain ⟨hlen, hidx, res2t, hres2, hmap⟩ := ih tail ht
              have hd := evalRecord_dropRunId crit v t u r
              rw [he] at hd
              cases hu : evalRecord crit v u r with
              | error e3 =>
                  rw [hu] at hd
                  simp [Except.map] at hd
              | ok e2 =>
                  rw [hu] at hd
                  simp only [Except.map] at hd
                  injection hd with hd2
                  refine ⟨by simp [hlen], ?_, ?_⟩
                  · intro i hi hr2
                    cases i with
                    | zero =>
                        simpa using he
                    | succ n =>
                        simpa using hidx n (by simpa using hi) (by simpa using hr2)
                  · refine ⟨e2 :: res2t, ?_, ?_⟩
                    · rw [evaluate_cons, hu, hres2]
                      rfl
                    · simp [hmap, hd2]

/-- C9 witness: the list-level facts applied to a fixed one-record run. -/
theorem C9_witness :
    c9Res.length = 1
  ∧ (∃ res2, evaluate [blankRecord] defaultCriteria "v1" "20240101000001"
        = Except.ok res2 ∧ res2.map dropRunId = c9Res.map dropRunId) := by
  have h := C9_amended defaultCriteria "v1" "20240101000000" "20240101000001"
      [blankRecord] c9Res rfl
  exact ⟨h.1, h.2.2⟩

/-- Two coerced records that agree on every field except preparer and
approver, and whose SoD checks agree, evaluate to the same result row:
the identities enter the result only through the SoD check. -/
theorem evalCoerced_congr_sod (crit : Criteria) (v t : String) (c1 c2 : Coerced)
    (hent : c1.entity = c2.entity)
    (hacc : c1.account_id = c2.account_id)
    (hnam : c1.account_name = c2.account_name)
    (hper : c1.period_end = c2.period_end)
    (hgl : c1.gl_bal = c2.gl_bal)
    (hsub : c1.sub_bal = c2.sub_bal)
    (hpre : c1.prepared_on = c2.prepared_on)
    (happ : c1.approved_on = c2.approved_on)
    (hito : c1.items_over = c2.items_over)
    (hpl : c1.plan = c2.plan)
    (hev : c1.evidence = c2.evidence)
    (hsp : sod_pass crit c1 = sod_pass crit c2) :
    evalCoerced crit v t c1 = evalCoerced crit v t c2 := by
  cases c1
  cases c2
  simp only [Coerced.mk.injEq] at *
  subst hent hacc hnam hper hgl hsub hpre happ hito hpl hev
  simp [evalCoerced, statusOf, rationaleOf, failures, failMsgIf, finalSeverity,
    sev3, sev2, sev1, tieout_pass, tieout_tol, variance, tieoutMsg, timelyMsg,
    timely_pass, sla_over, aging_pass, hsp]

/-- C10: when SoD is required and both the preparer and the approver
cells are absent, each coerces to the empty string, the SoD check fails
(the violation flag is set and the severity is high), and the record is
treated identically to one where the same named person prepared and
approved. -/
theorem C10_missing_sod (crit : Criteria) (v t : String) (r : RawRecord) (c : Coerced)
    (res : EvaluationResult)
    (hsod : crit.require_sod = true)
    (hp : r.preparer = Value.vNone)
    (ha : r.approver = Value.vNone)
    (hc : coerceRecord r = Except.ok c)
    (hr : evalRecord crit v t r = Except.ok res) :
    c.preparer = "" ∧ c.approver = ""
  ∧ res.sod_violation = true ∧ res.severity = "high"
  ∧ evalRecord crit v t
      { r with preparer := Value.vStr "J.Lee", approver := Value.vStr "J.Lee" }
      = Except.ok res := by
  have hres : res = evalCoerced crit v t c := by
    rw [evalRecord_ok crit v t r c hc] at hr
    injection hr with h2
    exact h2.symm
  subst hres
  unfold coerceRecord at hc
  cases hg : pyFloat (pyOr r.gl_ending_balance (Value.vFloat 0)) with
  | error e => rw [hg] at hc; simp at hc
  | ok gb =>
  cases hs : pyFloat (pyOr r.subledger_ending_balance (Value.vFloat 0)) with
  | error e => rw [hg, hs] at hc; simp at hc
  | ok sb =>
  cases hio : pyIntFn (pyOr r.items_over_aging_threshold (Value.vInt 0)) with
  | error e => rw [hg, hs, hio] at hc; simp at hc
  | ok io =>
  rw [hg, hs, hio] at hc
  simp only at hc
  injection hc with hc2
  have hcp : c.preparer = "" := by
    rw [← hc2, hp]
    rfl
  have hca : c.approver = "" := by
    rw [← hc2, ha]
    rfl
  have hsp : sod_pass crit c = false := by
    simp [sod_pass, hsod, hcp, hca]
  refine ⟨hcp, hca, by simp [evalCoerced, hsp], ?_, ?_⟩
  · cases hb1 : tieout_pass crit c <;> cases hb3 : timely_pass crit c <;>
      cases hb4 : aging_pass crit c <;>
      simp [evalCoerced, finalSeverity, sev3, sev2, sev1, hsp, hb1, hb3, hb4,
        sevAfterTieoutStep, sevAfterSodStep, sevAfterTimelyStep, sevAfterAgingStep]
  · have hc3 : coerceRecord
        { r with preparer := Value.vStr "J.Lee", approver := Value.vStr "J.Lee" }
        = Except.ok { c with preparer := "J.Lee", approver := "J.Lee" } := by
      unfold coerceRecord
      simp only
      rw [hg, hs, hio]
      simp only
      rw [← hc2]
      rfl
    rw [evalRecord_ok crit v t _ _ hc3]
    have heq : evalCoerced crit v t { c with preparer := "J.Lee", approver := "J.Lee" }
        = evalCoerced crit v t c := by
      apply evalCoerced_congr_sod <;> try rfl
      simp [sod_pass, hsod, hcp, hca]
    rw [heq]

/-- C10 witness: the blank record under the default criteria (SoD
required) is an SoD violation with severity high, and evaluates exactly
as the same record with one person as both preparer and approver. -/
theorem C10_witness :
    (evalCoerced defaultCriteria "v1" "t0" blankCoerced).sod_violation = true
  ∧ (evalCoerced defaultCriteria "v1" "t0" blankCoerced).severity = "high"
  ∧ evalRecord defaultCriteria "v1" "t0"
      { blankRecord with preparer := Value.vStr "J.Lee", approver := Value.vStr "J.Lee" }
      = Except.ok (evalCoerced defaultCriteria "v1" "t0" blankCoerced) := by
  have h := C10_missing_sod defaultCriteria "v1" "t0" blankRecord blankCoerced
      (evalCoerced defaultCriteria "v1" "t0" blankCoerced) rfl rfl rfl rfl rfl
  exact ⟨h.2.2.1, h.2.2.2.1, h.2.2.2.2⟩
